import Mathlib

/-!
Shallow embedding of the Amazon Location Service / Snowflake integration
sample (TypeScript sources under `src/functions`), together with proofs
about its request decoding, geocoding dispatch, and the CloudFormation
custom-resource reconciler for Snowflake resources.

JavaScript values that flow through the untyped parts of the code are
modelled by the inductive type `JsValue`; `undefined` is `JsValue.undefined`.
JavaScript numbers are modelled by `Int` (the claims under study concern
only sentinel values and identifiers, never fractional arithmetic).
Thrown JavaScript errors are modelled by `Except JsError`.
-/

/-- A JavaScript value, as needed by the untyped row-processing code.
Numbers are modelled by `Int`. -/
inductive JsValue where
  | null
  | undefined
  | bool (b : Bool)
  | num (n : Int)
  | str (s : String)
  | arr (elems : List JsValue)
  | obj (fields : List (String × JsValue))
deriving Repr

/-- A thrown JavaScript error: either a `TypeError` raised by the runtime
(for example reading a property of `undefined`) or an `Error` carrying a
message (also used for errors surfaced by AWS SDK / Snowflake calls). -/
inductive JsError where
  | typeError
  | error (msg : String)
deriving Repr, DecidableEq

/-- The message extracted from an error by the proxy handler's catch block
(`err instanceof Error ? err.message : ...`). -/
def jsErrorMessage : JsError → String
  | .typeError => "TypeError: cannot read properties of undefined"
  | .error msg => msg

/-- JavaScript truthiness for the values of `JsValue`. -/
def jsTruthy : JsValue → Bool
  | .null => false
  | .undefined => false
  | .bool b => b
  | .num n => n != 0
  | .str s => s != ""
  | .arr _ => true
  | .obj _ => true

/-- Property access on an object field list: the first binding of the key,
or none (JavaScript `undefined`) when the key is absent. -/
def jsField (fields : List (String × JsValue)) (key : String) : Option JsValue :=
  (fields.find? (fun p => p.1 == key)).map (·.2)

/-- Property access returning `undefined` when the key is absent, as in
JavaScript member access on a plain object. -/
def jsFieldD (fields : List (String × JsValue)) (key : String) : JsValue :=
  (jsField fields key).getD .undefined

/-- The test `Object(data).hasOwnProperty(key)` on a plain object. -/
def hasOwnKey (fields : List (String × JsValue)) (key : String) : Bool :=
  fields.any (fun p => p.1 == key)

/-- Embedding of `checkData` from `src/functions/common/helpers.ts`.
The source iterates `Object.keys(properties)` where `properties` is the
array of property names, so the loop runs over the array's own keys, the
index strings "0", "1", ...; each is then looked up in `data`. -/
def checkData (data : Option (List (String × JsValue))) (properties : List String) : Bool :=
  match data with
  | none => false
  | some fields =>
    (List.range properties.length).all (fun i => hasOwnKey fields (toString i))

/-- Embedding of `getValuesFromEventProperties` from
`src/functions/common/helpers.ts`, applied to the event's
`ResourceProperties` object. It throws its missing-properties error when
`checkData` returns true, and otherwise returns the three properties read
off the object (each `undefined` when absent). -/
def getValuesFromEventProperties (properties : List (String × JsValue)) :
    Except JsError (JsValue × JsValue × JsValue) :=
  if checkData (some properties) ["integrationName", "apiAwsRoleArn", "apiBaseUrl"] then
    .error (.error "missing properties in CloudFormation event")
  else
    .ok (jsFieldD properties "integrationName",
         jsFieldD properties "apiAwsRoleArn",
         jsFieldD properties "apiBaseUrl")

/-- Embedding of `getRowsFromBody` from `src/functions/common/helpers.ts`.
The argument is the outcome of `JSON.parse(body || "{}")`: `.error ()`
when the raw body is not valid JSON (the `catch` branch of the source),
otherwise the parsed value. The source then rejects values whose `typeof`
is not "object", rejects `null` and objects whose `data` property is
falsy, and returns the `data` value unchanged otherwise. -/
def getRowsFromBody (parsed : Except Unit JsValue) : Except String JsValue :=
  match parsed with
  | .error _ => .error "invalid body"
  | .ok v =>
    match v with
    | .null => .error "invalid body"
    | .undefined => .error "invalid body"
    | .bool _ => .error "invalid body"
    | .num _ => .error "invalid body"
    | .str _ => .error "invalid body"
    | .arr _ => .error "invalid body"
    | .obj fields =>
      let data := jsFieldD fields "data"
      if jsTruthy data then .ok data else .error "invalid body"

/-- Lookup of a header value: API Gateway proxy event headers map names to
`string | undefined`, so an entry may be present with value `undefined`.
Both an absent entry and a present-but-undefined entry read as
`undefined`. -/
def jsHeaderGet (headers : List (String × Option String)) (key : String) : Option String :=
  match headers.lookup key with
  | none => none
  | some v => v

/-- Embedding of `getSnowflakeFunctionNameFromHeaders` from
`src/functions/common/helpers.ts`: reads the
`sf-external-function-name` header and fails when its value is falsy
(absent, undefined, or the empty string). -/
def getSnowflakeFunctionNameFromHeaders (headers : List (String × Option String)) :
    Except String String :=
  match jsHeaderGet headers "sf-external-function-name" with
  | none => .error "missing function name"
  | some s => if s = "" then .error "missing function name" else .ok s

/-! ## Amazon Location Service model (`src/functions/common/location-helpers.ts`) -/

/-- The `Geometry` member of a returned place: an optional coordinate
array (`Point`). -/
structure GeoGeometry where
  Point : Option (List Int)
deriving Repr

/-- A returned place, with an optional geometry and an optional label. -/
structure GeoPlace where
  Geometry : Option GeoGeometry := none
  Label : Option String := none
deriving Repr

/-- One entry of the `Results` array of a search response. -/
structure SearchResult where
  Place : Option GeoPlace
deriving Repr

/-- A successful response from `SearchPlaceIndexForTextCommand` /
`SearchPlaceIndexForPositionCommand`: the `Results` member is optional
(absent models an `undefined` field) and otherwise a list of results. -/
structure SearchResponse where
  Results : Option (List SearchResult)
deriving Repr

/-- Evaluation of the optional chain
`res.Results?.[0].Place?.Geometry?.Point?.[i]` followed by nothing: the
result is `undefined` (`none`) when a guarded link is nullish, a number
when the coordinate exists, and a thrown `TypeError` when `Results` is a
present but empty array — `Results?.[0]` is then `undefined` and the
unguarded `.Place` access throws. -/
def chainPoint (res : SearchResponse) (i : Nat) : Except JsError (Option Int) :=
  match res.Results with
  | none => .ok none
  | some results =>
    match results.head? with
    | none => .error .typeError
    | some r =>
      match r.Place with
      | none => .ok none
      | some p =>
        match p.Geometry with
        | none => .ok none
        | some g =>
          match g.Point with
          | none => .ok none
          | some pt => .ok pt[i]?

/-- Evaluation of the optional chain `res.Results?.[0].Place?.Label`,
with the same `TypeError` behaviour on a present-but-empty `Results`
array. -/
def chainLabel (res : SearchResponse) : Except JsError (Option String) :=
  match res.Results with
  | none => .ok none
  | some results =>
    match results.head? with
    | none => .error .typeError
    | some r =>
      match r.Place with
      | none => .ok none
      | some p => .ok p.Label

/-- JavaScript `x || d` for a possibly-undefined number `x`: the default
is used when `x` is `undefined` or `0` (both falsy). -/
def jsNumOr (x : Option Int) (d : Int) : Int :=
  match x with
  | none => d
  | some n => if n = 0 then d else n

/-- JavaScript `x || d` for a possibly-undefined string `x`: the default
is used when `x` is `undefined` or the empty string. -/
def jsStrOr (x : Option String) (d : String) : String :=
  match x with
  | none => d
  | some s => if s = "" then d else s

/-- Array destructuring `const [a, b] = row` of a `JsValue`: missing
elements read as `undefined`; destructuring a non-array throws a
`TypeError` (string iterability is not modelled). -/
def jsDestructure2 (row : JsValue) : Except JsError (JsValue × JsValue) :=
  match row with
  | .arr elems => .ok (elems.getD 0 .undefined, elems.getD 1 .undefined)
  | _ => .error .typeError

/-- Array destructuring `const [a, b, c] = row` of a `JsValue`. -/
def jsDestructure3 (row : JsValue) : Except JsError (JsValue × JsValue × JsValue) :=
  match row with
  | .arr elems => .ok (elems.getD 0 .undefined, elems.getD 1 .undefined, elems.getD 2 .undefined)
  | _ => .error .typeError

/-- The body of the `geocodeRows` loop for one row: destructure
`(id, address)`, send `SearchPlaceIndexForTextCommand` (the backend is a
parameter modelling `locationClient.send`, applied to the place index and
the address), then build `[id, Point[0] || -1, Point[1] || -1]`. -/
def processGeocodeRow (backend : JsValue → JsValue → Except JsError SearchResponse)
    (placeIndex : JsValue) (row : JsValue) : Except JsError JsValue := do
  let (id, address) ← jsDestructure2 row
  let res ← backend placeIndex address
  let lon ← chainPoint res 0
  let lat ← chainPoint res 1
  pure (.arr [id, .num (jsNumOr lon (-1)), .num (jsNumOr lat (-1))])

/-- Embedding of `geocodeRows` from
`src/functions/common/location-helpers.ts`: a sequential loop over the
rows; the first thrown error aborts the loop and propagates (the
function's catch block logs and rethrows), so no partial result list is
ever returned. -/
def geocodeRows (backend : JsValue → JsValue → Except JsError SearchResponse)
    (placeIndex : JsValue) : List JsValue → Except JsError (List JsValue)
  | [] => .ok []
  | row :: rest => do
    let out ← processGeocodeRow backend placeIndex row
    let rest' ← geocodeRows backend placeIndex rest
    pure (out :: rest')

/-- The body of the `reverseGeocodeRows` loop for one row: destructure
`(id, longitude, latitude)`, send `SearchPlaceIndexForPositionCommand`
(the backend parameter receives the place index and the position pair),
then build `[id, Label || "N/A"]`. -/
def processReverseGeocodeRow
    (backend : JsValue → JsValue × JsValue → Except JsError SearchResponse)
    (placeIndex : JsValue) (row : JsValue) : Except JsError JsValue := do
  let (id, lon, lat) ← jsDestructure3 row
  let res ← backend placeIndex (lon, lat)
  let label ← chainLabel res
  pure (.arr [id, .str (jsStrOr label "N/A")])

/-- Embedding of `reverseGeocodeRows` from
`src/functions/common/location-helpers.ts`, with the same sequential
fail-fast loop structure as `geocodeRows`. -/
def reverseGeocodeRows
    (backend : JsValue → JsValue × JsValue → Except JsError SearchResponse)
    (placeIndex : JsValue) : List JsValue → Except JsError (List JsValue)
  | [] => .ok []
  | row :: rest => do
    let out ← processReverseGeocodeRow backend placeIndex row
    let rest' ← reverseGeocodeRows backend placeIndex rest
    pure (out :: rest')

/-- Embedding of `getPlaceIndexes` from `src/functions/common/helpers.ts`.
The argument is the outcome of the AppConfig fetch: a thrown error, or
the fetched JSON map (possibly `undefined`, modelled `none`). The source
rethrows fetch errors, throws its missing-place-indexes error when
`checkData(placeIndexes, ["Esri", "Here"])` returns true, and otherwise
returns the fetched value unchanged (the `as PlaceIndexes` cast performs
no check). -/
def getPlaceIndexes (fetched : Except JsError (Option (List (String × JsValue)))) :
    Except JsError (Option (List (String × JsValue))) :=
  match fetched with
  | .error e => .error e
  | .ok placeIndexes =>
    if checkData placeIndexes ["Esri", "Here"] then
      .error (.error "missing place indexes in AppConfig")
    else
      .ok placeIndexes

/-- Reading a property of the value returned by `getPlaceIndexes`: a
`TypeError` when that value is `undefined`, otherwise the property value
(`undefined` when the key is absent — in particular `placeIndexes.Grab!`
is plain member access at runtime and yields `undefined`, never a thrown
error). -/
def jsGetProp (o : Option (List (String × JsValue))) (key : String) : Except JsError JsValue :=
  match o with
  | none => .error .typeError
  | some fields => .ok (jsFieldD fields key)

/-- ASCII lower-casing of one character, modelling the effect of
JavaScript toLowerCase on the ASCII function names used here. -/
def charToLower (c : Char) : Char :=
  if 65 ≤ c.toNat ∧ c.toNat ≤ 90 then Char.ofNat (c.toNat + 32) else c

/-- Model of JavaScript String.prototype.toLowerCase (ASCII range). -/
def strToLower (s : String) : String := ⟨s.data.map charToLower⟩

/-- Model of JavaScript String.prototype.endsWith. -/
def strEndsWith (s suffix : String) : Bool := suffix.data.isSuffixOf s.data

/-- Model of JavaScript String.prototype.startsWith. -/
def strStartsWith (s pre : String) : Bool := pre.data.isPrefixOf s.data

/-- Embedding of `getPlaceIndexFromFunctionName` from
`src/functions/common/location-helpers.ts`: lower-case the function name,
fetch the place indexes, and select by suffix; an unmatched suffix throws
the no-provider error. -/
def getPlaceIndexFromFunctionName (functionName : String)
    (fetched : Except JsError (Option (List (String × JsValue)))) : Except JsError JsValue :=
  let n := strToLower functionName
  match getPlaceIndexes fetched with
  | .error e => .error e
  | .ok placeIndexes =>
    if strEndsWith n "here" then jsGetProp placeIndexes "Here"
    else if strEndsWith n "esri" then jsGetProp placeIndexes "Esri"
    else if strEndsWith n "grab" then jsGetProp placeIndexes "Grab"
    else .error (.error "no provider found, invalid function name")

/-- The operation type derived from the function name. -/
inductive OperationType where
  | geocode
  | reverseGeocode
deriving Repr, DecidableEq

/-- Embedding of `getOperationTypeFromFunctionName` from
`src/functions/common/location-helpers.ts`. -/
def getOperationTypeFromFunctionName (functionName : String) : Except JsError OperationType :=
  let n := strToLower functionName
  if strStartsWith n "geocode" then .ok .geocode
  else if strStartsWith n "reverse" then .ok .reverseGeocode
  else .error (.error "no operation type found, invalid function name")

/-- The response body of the proxy handler, structurally: either an error
object `{error: msg}` or a data object `{data: rows}` (the
`JSON.stringify` serialization step is not modelled). -/
inductive RespBody where
  | errorMsg (msg : String)
  | dataRows (rows : List JsValue)
deriving Repr

/-- An API Gateway Lambda response: status code and body. -/
structure LambdaResponse where
  statusCode : Nat
  body : RespBody
deriving Repr

/-- Iteration `for (const row of rows)` over the decoded `data` value: an
array yields its elements; a non-iterable value throws a `TypeError`
(string iterability is not modelled). -/
def jsIterate (rows : JsValue) : Except JsError (List JsValue) :=
  match rows with
  | .arr elems => .ok elems
  | _ => .error .typeError

/-- Embedding of the proxy handler from
`src/functions/handleSnowflakeFunctionRequests.ts`: decode the body
(failure → 400), decode the identity header (failure → 401), then inside
the try block classify the operation, resolve the place index, dispatch
the batch, and map a thrown error to 500 with its message and success to
200 with the data rows. -/
def handler (parsedBody : Except Unit JsValue) (headers : List (String × Option String))
    (fetched : Except JsError (Option (List (String × JsValue))))
    (geoBackend : JsValue → JsValue → Except JsError SearchResponse)
    (revBackend : JsValue → JsValue × JsValue → Except JsError SearchResponse) :
    LambdaResponse :=
  match getRowsFromBody parsedBody with
  | .error msg => ⟨400, .errorMsg msg⟩
  | .ok rows =>
    match getSnowflakeFunctionNameFromHeaders headers with
    | .error _ => ⟨401, .errorMsg "missing required Snowflake header: sf-external-function-name"⟩
    | .ok functionName =>
      let attempt : Except JsError (List JsValue) := do
        let operation ← getOperationTypeFromFunctionName functionName
        let dataProvider ← getPlaceIndexFromFunctionName functionName fetched
        let rowList ← jsIterate rows
        match operation with
        | .reverseGeocode => reverseGeocodeRows revBackend dataProvider rowList
        | .geocode => geocodeRows geoBackend dataProvider rowList
      match attempt with
      | .ok data => ⟨200, .dataRows data⟩
      | .error e => ⟨500, .errorMsg (jsErrorMessage e)⟩

/-! ## Snowflake reconciler model (`src/functions/common/snowflake-helpers.ts`
and the custom-resource handler). The warehouse itself is external to the
repository; its statement semantics are modelled from the spec (section 4.6
and 6): a plain `DROP` of a missing object fails, a `DROP ... IF EXISTS`
succeeds, `CREATE OR REPLACE` always succeeds, a plain `CREATE` of an
existing object fails, and `DESCRIBE` of a missing object fails. -/

/-- A SQL statement issued by the reconciler, structured by the statement
templates interpolated in `snowflake-helpers.ts`. `createIntegration` is
the `CREATE OR REPLACE API INTEGRATION` template; `dropIntegration` is
the plain `DROP API INTEGRATION` template (no `IF EXISTS` clause);
`dropFunctionIfExists` is the `DROP FUNCTION IF EXISTS` template. -/
inductive SfStatement where
  | createIntegration (name roleArn allowedUrl : String)
  | dropIntegration (name : String)
  | describeIntegration (name : String)
  | createFunction (name integrationName apiBaseUrl : String)
  | dropFunctionIfExists (name : String)
deriving Repr, DecidableEq

/-- Modelled from the spec: the warehouse state visible to the
reconciler — which API integrations and external functions exist, and the
property rows a `DESCRIBE INTEGRATION` returns for each integration. -/
structure Warehouse where
  integrations : List String
  functions : List String
  describeRows : String → List (String × String)

/-- Removal of a named object from a warehouse object list (object names
are unique, so removal is by name). -/
def removeName (l : List String) (n : String) : List String :=
  l.filter (fun x => x != n)

/-- Modelled from the spec: execution of one statement against the
warehouse, returning the updated state and the result rows (non-empty
only for `DESCRIBE`). A plain `DROP` or a `DESCRIBE` of an absent
integration fails; `DROP ... IF EXISTS` always succeeds; `CREATE OR
REPLACE API INTEGRATION` always succeeds; a plain `CREATE EXTERNAL
FUNCTION` of an existing function fails. -/
def execStatement (w : Warehouse) :
    SfStatement → Except JsError (Warehouse × List (String × String))
  | .createIntegration name _ _ =>
    .ok ({ w with integrations := name :: removeName w.integrations name }, [])
  | .dropIntegration name =>
    if name ∈ w.integrations then
      .ok ({ w with integrations := removeName w.integrations name }, [])
    else
      .error (.error "integration does not exist or not authorized")
  | .describeIntegration name =>
    if name ∈ w.integrations then
      .ok (w, w.describeRows name)
    else
      .error (.error "integration does not exist or not authorized")
  | .createFunction name _ _ =>
    if name ∈ w.functions then
      .error (.error "function already exists")
    else
      .ok ({ w with functions := name :: w.functions }, [])
  | .dropFunctionIfExists name =>
    .ok ({ w with functions := removeName w.functions name }, [])

/-- The outcome of running a reconciler operation: its result or thrown
error, the final warehouse state, and the trace of statements submitted
to `snowflakeClient.executeStatement` (in submission order, including a
final statement whose execution failed). -/
structure SfRun (α : Type) where
  out : Except JsError α
  state : Warehouse
  trace : List SfStatement

/-- Sequential execution of a list of statements (the `for ... await`
loops of `createExternalFunctions` / `deleteExternalFunctions`): the
first failure aborts the loop and propagates. -/
def execStatements (w : Warehouse) : List SfStatement → SfRun Unit
  | [] => ⟨.ok (), w, []⟩
  | s :: rest =>
    match execStatement w s with
    | .error e => ⟨.error e, w, [s]⟩
    | .ok (w', _) =>
      let r := execStatements w' rest
      ⟨r.out, r.state, s :: r.trace⟩

/-- Embedding of `createApiIntegration`: submits the `CREATE OR REPLACE
API INTEGRATION` statement and rethrows any failure. -/
def createApiIntegration (w : Warehouse) (integrationName roleArn allowedUrl : String) :
    SfRun Unit :=
  match execStatement w (.createIntegration integrationName roleArn allowedUrl) with
  | .error e => ⟨.error e, w, [.createIntegration integrationName roleArn allowedUrl]⟩
  | .ok (w', _) => ⟨.ok (), w', [.createIntegration integrationName roleArn allowedUrl]⟩

/-- Embedding of `deleteApiIntegration`: submits the plain
`DROP API INTEGRATION` statement and rethrows any failure. -/
def deleteApiIntegration (w : Warehouse) (integrationName : String) : SfRun Unit :=
  match execStatement w (.dropIntegration integrationName) with
  | .error e => ⟨.error e, w, [.dropIntegration integrationName]⟩
  | .ok (w', _) => ⟨.ok (), w', [.dropIntegration integrationName]⟩

/-- Embedding of `updateApiIntegration`: when the requested name differs
from the physical resource id, delete the old integration then create the
new one; when the names are equal the body of the `if` is skipped and the
function returns immediately, issuing no statement at all. -/
def updateApiIntegration (w : Warehouse)
    (integrationName roleArn allowedUrl physicalResourceId : String) : SfRun Unit :=
  if physicalResourceId ≠ integrationName then
    let d := deleteApiIntegration w physicalResourceId
    match d.out with
    | .error e => ⟨.error e, d.state, d.trace⟩
    | .ok _ =>
      let c := createApiIntegration d.state integrationName roleArn allowedUrl
      ⟨c.out, c.state, d.trace ++ c.trace⟩
  else
    ⟨.ok (), w, []⟩

/-- Extraction of the `API_AWS_IAM_USER_ARN` and `API_AWS_EXTERNAL_ID`
property values from the `DESCRIBE INTEGRATION` result rows, as done in
`describeApiIntegration`: an empty result set or a missing or falsy
property value is an error. -/
def describeRowsOut (res : List (String × String)) : Except JsError (String × String) :=
  if res.length ≠ 0 then
    let apiAwsIamUserArn := (res.find? (fun r => r.1 == "API_AWS_IAM_USER_ARN")).map (·.2)
    let apiAwsExternalId := (res.find? (fun r => r.1 == "API_AWS_EXTERNAL_ID")).map (·.2)
    match apiAwsIamUserArn, apiAwsExternalId with
    | some arn, some eid =>
      if arn = "" ∨ eid = "" then
        .error (.error "API_AWS_IAM_USER_ARN or API_AWS_EXTERNAL_ID not found in response from Snowflake - check logs")
      else
        .ok (arn, eid)
    | _, _ =>
      .error (.error "API_AWS_IAM_USER_ARN or API_AWS_EXTERNAL_ID not found in response from Snowflake - check logs")
  else
    .error (.error "No response from Snowflake - check logs for more details")

/-- Embedding of `describeApiIntegration`: submit `DESCRIBE INTEGRATION`
and extract the attribute pair from the result rows. -/
def describeApiIntegration (w : Warehouse) (integrationName : String) :
    SfRun (String × String) :=
  match execStatement w (.describeIntegration integrationName) with
  | .error e => ⟨.error e, w, [.describeIntegration integrationName]⟩
  | .ok (w', res) => ⟨describeRowsOut res, w', [.describeIntegration integrationName]⟩

/-- The four external function names always managed by the reconciler, in
the order their statements appear in `getInterpolatedStatements` and
`deleteExternalFunctions`. -/
def baseFunctionNames : List String :=
  ["reverse_geocode_amazon_location_service_provider_here",
   "reverse_geocode_amazon_location_service_provider_esri",
   "geocode_amazon_location_service_provider_here",
   "geocode_amazon_location_service_provider_esri"]

/-- The managed function names for a deployment region: the Grab pair is
appended exactly when the region is ap-southeast-1. -/
def functionNamesForRegion (awsRegion : String) : List String :=
  baseFunctionNames ++
    (if awsRegion = "ap-southeast-1" then
      ["reverse_geocode_amazon_location_service_provider_grab",
       "geocode_amazon_location_service_provider_grab"]
    else [])

/-- Embedding of `createExternalFunctions`: run the enumerated
`CREATE EXTERNAL FUNCTION` statements in order. -/
def createExternalFunctions (w : Warehouse)
    (awsRegion integrationName apiBaseUrl : String) : SfRun Unit :=
  execStatements w
    ((functionNamesForRegion awsRegion).map
      (fun n => .createFunction n integrationName apiBaseUrl))

/-- Embedding of `deleteExternalFunctions`: run the enumerated
`DROP FUNCTION IF EXISTS` statements in order. -/
def deleteExternalFunctions (w : Warehouse) (awsRegion : String) : SfRun Unit :=
  execStatements w ((functionNamesForRegion awsRegion).map .dropFunctionIfExists)

/-- Embedding of `updateExternalFunctions`: delete all managed functions,
then recreate them. -/
def updateExternalFunctions (w : Warehouse)
    (awsRegion integrationName apiBaseUrl : String) : SfRun Unit :=
  let d := deleteExternalFunctions w awsRegion
  match d.out with
  | .error e => ⟨.error e, d.state, d.trace⟩
  | .ok _ =>
    let c := createExternalFunctions d.state awsRegion integrationName apiBaseUrl
    ⟨c.out, c.state, d.trace ++ c.trace⟩

/-- Embedding of the Update branch of the custom-resource handler
(`event.RequestType === "Update"`), applied to the already-extracted
resource properties: update the integration, describe it, update the
external functions, and return the physical id with the described
attributes. -/
def handlerUpdate (w : Warehouse)
    (awsRegion integrationName apiAwsRoleArn apiBaseUrl physicalResourceId : String) :
    SfRun (String × String × String) :=
  let u := updateApiIntegration w integrationName apiAwsRoleArn apiBaseUrl physicalResourceId
  match u.out with
  | .error e => ⟨.error e, u.state, u.trace⟩
  | .ok _ =>
    let d := describeApiIntegration u.state integrationName
    match d.out with
    | .error e => ⟨.error e, d.state, u.trace ++ d.trace⟩
    | .ok (arn, eid) =>
      let f := updateExternalFunctions d.state awsRegion integrationName apiBaseUrl
      match f.out with
      | .error e => ⟨.error e, f.state, u.trace ++ d.trace ++ f.trace⟩
      | .ok _ => ⟨.ok (integrationName, arn, eid), f.state, u.trace ++ d.trace ++ f.trace⟩

/-- Embedding of the Delete branch of the custom-resource handler
(`event.RequestType === "Delete"`): delete the integration under the
event's physical resource id, then delete the external functions. -/
def handlerDelete (w : Warehouse) (awsRegion physicalResourceId : String) : SfRun Unit :=
  let d := deleteApiIntegration w physicalResourceId
  match d.out with
  | .error e => ⟨.error e, d.state, d.trace⟩
  | .ok _ =>
    let f := deleteExternalFunctions d.state awsRegion
    ⟨f.out, f.state, d.trace ++ f.trace⟩

/-- The first element of a row value (the destructured `id`): element 0
of an array, `undefined` otherwise. -/
def jsElem0 (v : JsValue) : JsValue :=
  match v with
  | .arr elems => elems.getD 0 .undefined
  | _ => .undefined

/-- Whether a statement writes (creates or drops) an API integration
record. -/
def isIntegrationWrite : SfStatement → Bool
  | .createIntegration _ _ _ => true
  | .dropIntegration _ => true
  | _ => false

/-! ## Helper lemmas -/

/-- Inversion for a successful `Except` bind. -/
theorem except_bind_ok {ε α β : Type} {x : Except ε α} {f : α → Except ε β} {b : β}
    (h : (x >>= f) = .ok b) : ∃ a, x = .ok a ∧ f a = .ok b := by
  cases x with
  | error e => simp [Bind.bind, Except.bind] at h
  | ok a => exact ⟨a, rfl, by simpa [Bind.bind, Except.bind] using h⟩

/-- A bind whose first step fails, fails with that error. -/
theorem except_bind_error {ε α β : Type} {x : Except ε α} {f : α → Except ε β} {e : ε}
    (h : x = .error e) : (x >>= f) = .error e := by
  subst h; rfl

/-- A bind whose first step succeeds continues with the bound value. -/
theorem except_bind_step {ε α β : Type} {x : Except ε α} {f : α → Except ε β} {a : α}
    (h : x = .ok a) : (x >>= f) = f a := by
  subst h; rfl

/-- Inversion for `pure` in `Except`. -/
theorem except_pure_ok {ε α : Type} {a b : α} (h : (pure a : Except ε α) = .ok b) : a = b :=
  Except.ok.inj h

/-- A successful `processGeocodeRow` output carries the first element of
its input row. -/
theorem processGeocodeRow_ok_shape (gb : JsValue → JsValue → Except JsError SearchResponse)
    (idx row v : JsValue) (h : processGeocodeRow gb idx row = .ok v) :
    jsElem0 v = jsElem0 row := by
  simp only [processGeocodeRow] at h
  obtain ⟨p, hd, h⟩ := except_bind_ok h
  obtain ⟨res, hb, h⟩ := except_bind_ok h
  obtain ⟨lon, hlon, h⟩ := except_bind_ok h
  obtain ⟨lat, hlat, h⟩ := except_bind_ok h
  rw [← except_pure_ok h]
  cases row with
  | arr elems =>
    simp only [jsDestructure2, Except.ok.injEq] at hd
    simp [jsElem0, ← hd]
  | null => simp [jsDestructure2] at hd
  | undefined => simp [jsDestructure2] at hd
  | bool b => simp [jsDestructure2] at hd
  | num n => simp [jsDestructure2] at hd
  | str s => simp [jsDestructure2] at hd
  | obj fields => simp [jsDestructure2] at hd

/-- A successful `processReverseGeocodeRow` output carries the first
element of its input row. -/
theorem processReverseGeocodeRow_ok_shape
    (rb : JsValue → JsValue × JsValue → Except JsError SearchResponse)
    (idx row v : JsValue) (h : processReverseGeocodeRow rb idx row = .ok v) :
    jsElem0 v = jsElem0 row := by
  simp only [processReverseGeocodeRow] at h
  obtain ⟨p, hd, h⟩ := except_bind_ok h
  obtain ⟨res, hb, h⟩ := except_bind_ok h
  obtain ⟨label, hl, h⟩ := except_bind_ok h
  rw [← except_pure_ok h]
  cases row with
  | arr elems =>
    simp only [jsDestructure3, Except.ok.injEq] at hd
    simp [jsElem0, ← hd]
  | null => simp [jsDestructure3] at hd
  | undefined => simp [jsDestructure3] at hd
  | bool b => simp [jsDestructure3] at hd
  | num n => simp [jsDestructure3] at hd
  | str s => simp [jsDestructure3] at hd
  | obj fields => simp [jsDestructure3] at hd

/-- On success, `geocodeRows` yields one output row per input row, and
output row i carries the first element of input row i. -/
theorem geocodeRows_ok_spec (gb : JsValue → JsValue → Except JsError SearchResponse)
    (idx : JsValue) :
    ∀ (rows out : List JsValue), geocodeRows gb idx rows = .ok out →
      out.length = rows.length ∧
      ∀ i, i < rows.length → jsElem0 (out.getD i .undefined) = jsElem0 (rows.getD i .undefined) := by
  intro rows
  induction rows with
  | nil =>
    intro out h
    simp only [geocodeRows] at h
    cases h
    exact ⟨rfl, by intro i hi; cases hi⟩
  | cons row rest ih =>
    intro out h
    simp only [geocodeRows] at h
    obtain ⟨v, hp, h⟩ := except_bind_ok h
    obtain ⟨rest', hr, h⟩ := except_bind_ok h
    rw [← except_pure_ok h]
    obtain ⟨hlen, hids⟩ := ih rest' hr
    refine ⟨by simpa using hlen, ?_⟩
    intro i hi
    cases i with
    | zero =>
      simpa using processGeocodeRow_ok_shape gb idx row v hp
    | succ j =>
      simpa using hids j (Nat.lt_of_succ_lt_succ hi)

/-- On success, `reverseGeocodeRows` yields one output row per input row,
and output row i carries the first element of input row i. -/
theorem reverseGeocodeRows_ok_spec
    (rb : JsValue → JsValue × JsValue → Except JsError SearchResponse) (idx : JsValue) :
    ∀ (rows out : List JsValue), reverseGeocodeRows rb idx rows = .ok out →
      out.length = rows.length ∧
      ∀ i, i < rows.length → jsElem0 (out.getD i .undefined) = jsElem0 (rows.getD i .undefined) := by
  intro rows
  induction rows with
  | nil =>
    intro out h
    simp only [reverseGeocodeRows] at h
    cases h
    exact ⟨rfl, by intro i hi; cases hi⟩
  | cons row rest ih =>
    intro out h
    simp only [reverseGeocodeRows] at h
    obtain ⟨v, hp, h⟩ := except_bind_ok h
    obtain ⟨rest', hr, h⟩ := except_bind_ok h
    rw [← except_pure_ok h]
    obtain ⟨hlen, hids⟩ := ih rest' hr
    refine ⟨by simpa using hlen, ?_⟩
    intro i hi
    cases i with
    | zero =>
      simpa using processReverseGeocodeRow_ok_shape rb idx row v hp
    | succ j =>
      simpa using hids j (Nat.lt_of_succ_lt_succ hi)

/-- C3: for every batch whose backend calls all succeed, the output of
geocodeRows / reverseGeocodeRows has the same length as the input, and
for every index i the id in output row i equals the first element of
input row i (order and identity preservation under the sequential
loop). -/
theorem dispatcher_preserves_length_and_ids
    (gb : JsValue → JsValue → Except JsError SearchResponse)
    (rb : JsValue → JsValue × JsValue → Except JsError SearchResponse)
    (idx idx' : JsValue) (rows rows' out out' : List JsValue)
    (hg : geocodeRows gb idx rows = .ok out)
    (hr : reverseGeocodeRows rb idx' rows' = .ok out') :
    (out.length = rows.length ∧
      ∀ i, i < rows.length → jsElem0 (out.getD i .undefined) = jsElem0 (rows.getD i .undefined)) ∧
    (out'.length = rows'.length ∧
      ∀ i, i < rows'.length → jsElem0 (out'.getD i .undefined) = jsElem0 (rows'.getD i .undefined)) :=
  ⟨geocodeRows_ok_spec gb idx rows out hg, reverseGeocodeRows_ok_spec rb idx' rows' out' hr⟩

/-- Witness for C3 on a concrete two-row geocode batch and a concrete
one-row reverse-geocode batch whose backend always finds a match. -/
theorem dispatcher_preserves_length_and_ids_witness :
    ([JsValue.arr [.num 1, .num 13, .num 52], JsValue.arr [.num 2, .num 13, .num 52]] : List JsValue).length
      = ([JsValue.arr [.num 1, .str "addr one"], JsValue.arr [.num 2, .str "addr two"]] : List JsValue).length ∧
    jsElem0 (([JsValue.arr [.num 1, .num 13, .num 52], JsValue.arr [.num 2, .num 13, .num 52]] : List JsValue).getD 0 .undefined)
      = jsElem0 (([JsValue.arr [.num 1, .str "addr one"], JsValue.arr [.num 2, .str "addr two"]] : List JsValue).getD 0 .undefined) := by
  have h := dispatcher_preserves_length_and_ids
    (fun _ _ => .ok ⟨some [⟨some ⟨some ⟨some [13, 52]⟩, some "A Label"⟩⟩]⟩)
    (fun _ _ => .ok ⟨some [⟨some ⟨some ⟨some [13, 52]⟩, some "A Label"⟩⟩]⟩)
    (.str "EsriIndex") (.str "EsriIndex")
    [JsValue.arr [.num 1, .str "addr one"], JsValue.arr [.num 2, .str "addr two"]]
    [JsValue.arr [.num 7, .num 13, .num 52]]
    [JsValue.arr [.num 1, .num 13, .num 52], JsValue.arr [.num 2, .num 13, .num 52]]
    [JsValue.arr [.num 7, .str "A Label"]]
    rfl rfl
  exact ⟨h.1.1, h.1.2 0 (by decide)⟩

/-- The geocode loop fails with the backend's error as soon as one row's
backend call fails, regardless of the rows that follow. -/
theorem geocodeRows_fail_fast (gb : JsValue → JsValue → Except JsError SearchResponse)
    (idx : JsValue) (bad : JsValue) (bid baddr : JsValue) (e : JsError)
    (hd : jsDestructure2 bad = .ok (bid, baddr))
    (hfail : gb idx baddr = .error e) :
    ∀ (pre : List JsValue), (∀ r ∈ pre, ∃ v, processGeocodeRow gb idx r = .ok v) →
      ∀ (post : List JsValue), geocodeRows gb idx (pre ++ bad :: post) = .error e := by
  intro pre
  induction pre with
  | nil =>
    intro _ post
    simp only [List.nil_append, geocodeRows]
    have hp : processGeocodeRow gb idx bad = .error e := by
      simp only [processGeocodeRow]
      rw [except_bind_step hd]
      exact except_bind_error hfail
    exact except_bind_error hp
  | cons r pre' ih =>
    intro hpre post
    obtain ⟨v, hv⟩ := hpre r (List.mem_cons_self r pre')
    simp only [List.cons_append, geocodeRows]
    rw [except_bind_step hv]
    exact except_bind_error (ih (fun r' hr' => hpre r' (List.mem_cons_of_mem _ hr')) post)

/-- The reverse-geocode loop fails with the backend's error as soon as
one row's backend call fails, regardless of the rows that follow. -/
theorem reverseGeocodeRows_fail_fast
    (rb : JsValue → JsValue × JsValue → Except JsError SearchResponse)
    (idx : JsValue) (bad : JsValue) (bid blon blat : JsValue) (e : JsError)
    (hd : jsDestructure3 bad = .ok (bid, blon, blat))
    (hfail : rb idx (blon, blat) = .error e) :
    ∀ (pre : List JsValue), (∀ r ∈ pre, ∃ v, processReverseGeocodeRow rb idx r = .ok v) →
      ∀ (post : List JsValue), reverseGeocodeRows rb idx (pre ++ bad :: post) = .error e := by
  intro pre
  induction pre with
  | nil =>
    intro _ post
    simp only [List.nil_append, reverseGeocodeRows]
    have hp : processReverseGeocodeRow rb idx bad = .error e := by
      simp only [processReverseGeocodeRow]
      rw [except_bind_step hd]
      exact except_bind_error hfail
    exact except_bind_error hp
  | cons r pre' ih =>
    intro hpre post
    obtain ⟨v, hv⟩ := hpre r (List.mem_cons_self r pre')
    simp only [List.cons_append, reverseGeocodeRows]
    rw [except_bind_step hv]
    exact except_bind_error (ih (fun r' hr' => hpre r' (List.mem_cons_of_mem _ hr')) post)

/-- C2: when the backend call for one row fails, geocodeRows and
reverseGeocodeRows return that error and no partial output; the rows
after the failing row (universally quantified here) are never dispatched
and never influence the result. -/
theorem batch_fail_fast_no_partial_output
    (gb : JsValue → JsValue → Except JsError SearchResponse)
    (rb : JsValue → JsValue × JsValue → Except JsError SearchResponse)
    (idx idx' bad bad' bid baddr bid' blon blat : JsValue) (e e' : JsError)
    (pre pre' : List JsValue)
    (hpre : ∀ r ∈ pre, ∃ v, processGeocodeRow gb idx r = .ok v)
    (hd : jsDestructure2 bad = .ok (bid, baddr))
    (hfail : gb idx baddr = .error e)
    (hpre' : ∀ r ∈ pre', ∃ v, processReverseGeocodeRow rb idx' r = .ok v)
    (hd' : jsDestructure3 bad' = .ok (bid', blon, blat))
    (hfail' : rb idx' (blon, blat) = .error e') :
    (∀ post, geocodeRows gb idx (pre ++ bad :: post) = .error e) ∧
    (∀ post, reverseGeocodeRows rb idx' (pre' ++ bad' :: post) = .error e') :=
  ⟨geocodeRows_fail_fast gb idx bad bid baddr e hd hfail pre hpre,
   reverseGeocodeRows_fail_fast rb idx' bad' bid' blon blat e' hd' hfail' pre' hpre'⟩

/-- Witness for C2 on a concrete three-row batch whose second row's
backend call fails: the whole batch fails with that error. -/
theorem batch_fail_fast_no_partial_output_witness :
    geocodeRows
      (fun _ t => match t with
        | .str s => if s = "addr two" then .error (.error "connection reset") else .ok ⟨none⟩
        | _ => .ok ⟨none⟩)
      (.str "EsriIndex")
      [JsValue.arr [.num 1, .str "addr one"], JsValue.arr [.num 2, .str "addr two"],
       JsValue.arr [.num 3, .str "addr three"]] = .error (.error "connection reset") ∧
    reverseGeocodeRows
      (fun _ p => match p with
        | (.num a, _) => if a = 2 then .error (.error "connection reset") else .ok ⟨none⟩
        | _ => .ok ⟨none⟩)
      (.str "EsriIndex")
      [JsValue.arr [.num 1, .num 1, .num 1], JsValue.arr [.num 2, .num 2, .num 2],
       JsValue.arr [.num 3, .num 3, .num 3]] = .error (.error "connection reset") := by
  have h := batch_fail_fast_no_partial_output
    (fun _ t => match t with
      | .str s => if s = "addr two" then .error (.error "connection reset") else .ok ⟨none⟩
      | _ => .ok ⟨none⟩)
    (fun _ p => match p with
      | (.num a, _) => if a = 2 then .error (.error "connection reset") else .ok ⟨none⟩
      | _ => .ok ⟨none⟩)
    (.str "EsriIndex") (.str "EsriIndex")
    (.arr [.num 2, .str "addr two"]) (.arr [.num 2, .num 2, .num 2])
    (.num 2) (.str "addr two") (.num 2) (.num 2) (.num 2)
    (.error "connection reset") (.error "connection reset")
    [JsValue.arr [.num 1, .str "addr one"]] [JsValue.arr [.num 1, .num 1, .num 1]]
    (by intro r hr; rw [List.mem_singleton] at hr; subst hr; exact ⟨_, rfl⟩)
    rfl rfl
    (by intro r hr; rw [List.mem_singleton] at hr; subst hr; exact ⟨_, rfl⟩)
    rfl rfl
  exact ⟨h.1 [JsValue.arr [.num 3, .str "addr three"]], h.2 [JsValue.arr [.num 3, .num 3, .num 3]]⟩

/-- When the backend always answers with an absent `Results` field, the
geocode loop maps every well-formed row to the sentinel row
`[id, -1, -1]` without error. -/
theorem geocodeRows_results_absent (gb : JsValue → JsValue → Except JsError SearchResponse)
    (idx : JsValue) (hb : ∀ a, gb idx a = .ok ⟨none⟩) :
    ∀ rows, (∀ r ∈ rows, ∃ elems, r = .arr elems) →
      geocodeRows gb idx rows
        = .ok (rows.map fun r => .arr [jsElem0 r, .num (-1), .num (-1)]) := by
  intro rows
  induction rows with
  | nil => intro _; rfl
  | cons row rest ih =>
    intro hrows
    obtain ⟨elems, he⟩ := hrows row (List.mem_cons_self row rest)
    subst he
    have hp : processGeocodeRow gb idx (.arr elems)
        = .ok (.arr [elems.getD 0 .undefined, .num (-1), .num (-1)]) := by
      simp [processGeocodeRow, jsDestructure2, hb, chainPoint, jsNumOr, Bind.bind,
        Except.bind, pure, Except.pure]
    simp only [geocodeRows, List.map_cons]
    rw [except_bind_step hp,
      except_bind_step (ih (fun r hr => hrows r (List.mem_cons_of_mem _ hr)))]
    simp [pure, Except.pure, jsElem0]

/-- When the backend always answers with an absent `Results` field, the
reverse-geocode loop maps every well-formed row to the sentinel row
`[id, "N/A"]` without error. -/
theorem reverseGeocodeRows_results_absent
    (rb : JsValue → JsValue × JsValue → Except JsError SearchResponse)
    (idx : JsValue) (hb : ∀ p, rb idx p = .ok ⟨none⟩) :
    ∀ rows, (∀ r ∈ rows, ∃ elems, r = .arr elems) →
      reverseGeocodeRows rb idx rows
        = .ok (rows.map fun r => .arr [jsElem0 r, .str "N/A"]) := by
  intro rows
  induction rows with
  | nil => intro _; rfl
  | cons row rest ih =>
    intro hrows
    obtain ⟨elems, he⟩ := hrows row (List.mem_cons_self row rest)
    subst he
    have hp : processReverseGeocodeRow rb idx (.arr elems)
        = .ok (.arr [elems.getD 0 .undefined, .str "N/A"]) := by
      simp [processReverseGeocodeRow, jsDestructure3, hb, chainLabel, jsStrOr, Bind.bind,
        Except.bind, pure, Except.pure]
    simp only [reverseGeocodeRows, List.map_cons]
    rw [except_bind_step hp,
      except_bind_step (ih (fun r hr => hrows r (List.mem_cons_of_mem _ hr)))]
    simp [pure, Except.pure, jsElem0]

/-- C1 counterexample: a backend lookup that succeeds and reports no
match with a present but empty `Results` array makes both dispatchers
throw a `TypeError` (the unguarded `.Place` access on
`Results?.[0]`) instead of producing the sentinel rows. -/
theorem noMatch_emptyResults_throws :
    geocodeRows (fun _ _ => .ok ⟨some []⟩) (.str "EsriIndex")
      [.arr [.num 1, .str "nowhere"]] = .error .typeError ∧
    reverseGeocodeRows (fun _ _ => .ok ⟨some []⟩) (.str "EsriIndex")
      [.arr [.num 1, .num 0, .num 0]] = .error .typeError ∧
    geocodeRows (fun _ _ => .ok ⟨some []⟩) (.str "EsriIndex")
      [.arr [.num 1, .str "nowhere"]] ≠ .ok [.arr [.num 1, .num (-1), .num (-1)]] ∧
    reverseGeocodeRows (fun _ _ => .ok ⟨some []⟩) (.str "EsriIndex")
      [.arr [.num 1, .num 0, .num 0]] ≠ .ok [.arr [.num 1, .str "N/A"]] := by
  refine ⟨rfl, rfl, ?_, ?_⟩ <;> intro h <;> exact Except.noConfusion h

/-- C1 amended: when a no-match backend answer carries an absent
`Results` field, every well-formed batch row is mapped to the sentinel
result row — `[id, -1, -1]` for geocode and `[id, "N/A"]` for reverse
geocode — and no error is raised; a no-match answer carrying an empty
`Results` array instead throws (see the counterexample). -/
theorem noMatch_absent_results_sentinel
    (gb : JsValue → JsValue → Except JsError SearchResponse)
    (rb : JsValue → JsValue × JsValue → Except JsError SearchResponse)
    (idx idx' : JsValue) (rows rows' : List JsValue)
    (hb : ∀ a, gb idx a = .ok ⟨none⟩) (hb' : ∀ p, rb idx' p = .ok ⟨none⟩)
    (hrows : ∀ r ∈ rows, ∃ elems, r = .arr elems)
    (hrows' : ∀ r ∈ rows', ∃ elems, r = .arr elems) :
    geocodeRows gb idx rows
      = .ok (rows.map fun r => .arr [jsElem0 r, .num (-1), .num (-1)]) ∧
    reverseGeocodeRows rb idx' rows'
      = .ok (rows'.map fun r => .arr [jsElem0 r, .str "N/A"]) :=
  ⟨geocodeRows_results_absent gb idx hb rows hrows,
   reverseGeocodeRows_results_absent rb idx' hb' rows' hrows'⟩

/-- Witness for the amended C1 on the spec's example rows. -/
theorem noMatch_absent_results_sentinel_witness :
    geocodeRows (fun _ _ => .ok ⟨none⟩) (.str "EsriIndex")
      [.arr [.num 1, .str "nowhere"]] = .ok [.arr [.num 1, .num (-1), .num (-1)]] ∧
    reverseGeocodeRows (fun _ _ => .ok ⟨none⟩) (.str "EsriIndex")
      [.arr [.num 1, .num 0, .num 0]] = .ok [.arr [.num 1, .str "N/A"]] := by
  have h := noMatch_absent_results_sentinel
    (fun _ _ => .ok ⟨none⟩) (fun _ _ => .ok ⟨none⟩)
    (.str "EsriIndex") (.str "EsriIndex")
    [.arr [.num 1, .str "nowhere"]] [.arr [.num 1, .num 0, .num 0]]
    (fun _ => rfl) (fun _ => rfl)
    (by intro r hr; rw [List.mem_singleton] at hr; exact ⟨_, hr⟩)
    (by intro r hr; rw [List.mem_singleton] at hr; exact ⟨_, hr⟩)
  simpa [jsElem0] using h

/-- C4 counterexample: a caller-identity name ending in "grab" resolved
against a fetched place-index map without a Grab entry yields
`undefined` (the non-null assertion `placeIndexes.Grab!` performs no
runtime check), not a thrown error. -/
theorem grab_absent_returns_undefined :
    getPlaceIndexFromFunctionName "geocode_amazon_location_service_provider_grab"
      (.ok (some [("Esri", .str "EsriIndex"), ("Here", .str "HereIndex")]))
      = .ok .undefined := rfl

/-- C4 amended: a name whose lower-cased form matches no known provider
suffix does fail with the no-provider error; but a name matching the
"grab" suffix when the fetched map lacks a Grab entry resolves to
`undefined` — a non-index value returned without any error. -/
theorem provider_resolution_amended
    (m pm : List (String × JsValue)) (n n' : String)
    (h1 : strEndsWith (strToLower n) "here" = false)
    (h2 : strEndsWith (strToLower n) "esri" = false)
    (h3 : strEndsWith (strToLower n) "grab" = true)
    (hm : jsField m "Grab" = none)
    (hcd : checkData (some m) ["Esri", "Here"] = false)
    (h1' : strEndsWith (strToLower n') "here" = false)
    (h2' : strEndsWith (strToLower n') "esri" = false)
    (h3' : strEndsWith (strToLower n') "grab" = false)
    (hcd' : checkData (some pm) ["Esri", "Here"] = false) :
    getPlaceIndexFromFunctionName n (.ok (some m)) = .ok .undefined ∧
    getPlaceIndexFromFunctionName n' (.ok (some pm))
      = .error (.error "no provider found, invalid function name") := by
  constructor
  · simp [getPlaceIndexFromFunctionName, getPlaceIndexes, hcd, h1, h2, h3, jsGetProp,
      jsFieldD, hm]
  · simp [getPlaceIndexFromFunctionName, getPlaceIndexes, hcd', h1', h2', h3']

/-- Witness for the amended C4 at a concrete grab-suffixed name with a
Grab-less map and a concrete unmatchable name. -/
theorem provider_resolution_amended_witness :
    getPlaceIndexFromFunctionName "reverse_geocode_amazon_location_service_provider_grab"
      (.ok (some [("Esri", .str "EsriIndex"), ("Here", .str "HereIndex")])) = .ok .undefined ∧
    getPlaceIndexFromFunctionName "geocode_xyz"
      (.ok (some [("Esri", .str "EsriIndex"), ("Here", .str "HereIndex")]))
      = .error (.error "no provider found, invalid function name") :=
  provider_resolution_amended
    [("Esri", .str "EsriIndex"), ("Here", .str "HereIndex")]
    [("Esri", .str "EsriIndex"), ("Here", .str "HereIndex")]
    "reverse_geocode_amazon_location_service_provider_grab" "geocode_xyz"
    (by decide) (by decide) (by decide) rfl (by decide)
    (by decide) (by decide) (by decide) (by decide)

/-- C7 counterexample: a geocode row `[1]` without an address field
passes request decoding untouched, is dispatched to the backend with
`undefined` as the search text, and the backend's rejection surfaces as
HTTP 500 — not as a 4xx request-validation error. -/
theorem arity_mismatch_dispatched_not_rejected :
    getRowsFromBody (.ok (.obj [("data", .arr [.arr [.num 1]])]))
      = .ok (.arr [.arr [.num 1]]) ∧
    handler (.ok (.obj [("data", .arr [.arr [.num 1]])]))
      [("sf-external-function-name", some "geocode_amazon_location_service_provider_esri")]
      (.ok (some [("Esri", .str "EsriIndex"), ("Here", .str "HereIndex")]))
      (fun _ t => match t with
        | .undefined => .error (.error "ValidationException: Text must not be null")
        | _ => .ok ⟨none⟩)
      (fun _ _ => .ok ⟨none⟩)
      = ⟨500, .errorMsg "ValidationException: Text must not be null"⟩ :=
  ⟨rfl, rfl⟩

/-- C7 amended: no arity validation exists; the decoder returns any
`data` array unchanged whatever the row shapes, a geocode row missing
its address is dispatched to the backend with `undefined` in place of
the address, and the backend's failure aborts the batch with that error
(surfaced by the handler as a 500, not a 4xx). -/
theorem arity_not_validated_dispatched
    (gb : JsValue → JsValue → Except JsError SearchResponse)
    (idx id : JsValue) (e : JsError)
    (hb : gb idx .undefined = .error e) :
    (∀ rows : List JsValue,
      getRowsFromBody (.ok (.obj [("data", .arr rows)])) = .ok (.arr rows)) ∧
    processGeocodeRow gb idx (.arr [id]) = .error e ∧
    (∀ rest, geocodeRows gb idx (.arr [id] :: rest) = .error e) := by
  have hp : processGeocodeRow gb idx (.arr [id]) = .error e := by
    simp only [processGeocodeRow]
    rw [except_bind_step (show jsDestructure2 (.arr [id]) = .ok (id, .undefined) from rfl)]
    exact except_bind_error hb
  refine ⟨?_, hp, ?_⟩
  · intro rows
    simp [getRowsFromBody, jsFieldD, jsField, jsTruthy]
  · intro rest
    simp only [geocodeRows]
    exact except_bind_error hp

/-- Witness for the amended C7 at the concrete row `[1]` and a backend
that rejects a missing text. -/
theorem arity_not_validated_dispatched_witness :
    getRowsFromBody (.ok (.obj [("data", .arr [.arr [.num 7]])]))
      = .ok (.arr [.arr [.num 7]]) ∧
    geocodeRows
      (fun _ t => match t with
        | .undefined => .error (.error "missing text")
        | _ => .ok ⟨none⟩)
      (.str "HereIndex") [.arr [.num 7]] = .error (.error "missing text") := by
  have h := arity_not_validated_dispatched
    (fun _ t => match t with
      | .undefined => .error (.error "missing text")
      | _ => .ok ⟨none⟩)
    (.str "HereIndex") (.num 7) (.error "missing text") rfl
  exact ⟨h.1 [.arr [.num 7]], h.2.2 []⟩

/-- C8: decoding fails with the invalid-body error when the raw body is
not valid JSON, when it parses to a non-object, when it parses to null,
or when the parsed object lacks a `data` field; a well-formed object with
a non-empty `data` array yields exactly those rows; and the handler maps
any decode failure to status 400 with the error message. -/
theorem body_decoding_spec :
    getRowsFromBody (.error ()) = .error "invalid body" ∧
    (∀ b, getRowsFromBody (.ok (.bool b)) = .error "invalid body") ∧
    (∀ z : Int, getRowsFromBody (.ok (.num z)) = .error "invalid body") ∧
    (∀ s, getRowsFromBody (.ok (.str s)) = .error "invalid body") ∧
    getRowsFromBody (.ok .null) = .error "invalid body" ∧
    (∀ fields, jsField fields "data" = none →
      getRowsFromBody (.ok (.obj fields)) = .error "invalid body") ∧
    (∀ fields rows, rows ≠ [] → jsField fields "data" = some (.arr rows) →
      getRowsFromBody (.ok (.obj fields)) = .ok (.arr rows)) ∧
    (∀ parsed headers fetched gb rb msg, getRowsFromBody parsed = .error msg →
      handler parsed headers fetched gb rb = ⟨400, .errorMsg msg⟩) := by
  refine ⟨rfl, fun b => rfl, fun z => rfl, fun s => rfl, rfl, ?_, ?_, ?_⟩
  · intro fields h
    simp [getRowsFromBody, jsFieldD, h, jsTruthy]
  · intro fields rows _ h
    simp [getRowsFromBody, jsFieldD, h, jsTruthy]
  · intro parsed headers fetched gb rb msg h
    simp [handler, h]

/-- Witness for C8 at the spec's example bodies: `{}` and a non-JSON
body are rejected, `{"data":[[1,"addr"]]}` yields its rows, and a
failing decode surfaces as a 400 response. -/
theorem body_decoding_spec_witness :
    getRowsFromBody (.ok (.obj [])) = .error "invalid body" ∧
    getRowsFromBody (.error ()) = .error "invalid body" ∧
    getRowsFromBody (.ok (.obj [("data", .arr [.arr [.num 1, .str "addr"]])]))
      = .ok (.arr [.arr [.num 1, .str "addr"]]) ∧
    handler (.ok (.obj [])) [] (.ok none) (fun _ _ => .ok ⟨none⟩) (fun _ _ => .ok ⟨none⟩)
      = ⟨400, .errorMsg "invalid body"⟩ := by
  refine ⟨body_decoding_spec.2.2.2.2.2.1 [] rfl, body_decoding_spec.1, ?_, ?_⟩
  · exact body_decoding_spec.2.2.2.2.2.2.1 [("data", .arr [.arr [.num 1, .str "addr"]])]
      [.arr [.num 1, .str "addr"]] (by simp) rfl
  · exact body_decoding_spec.2.2.2.2.2.2.2 (.ok (.obj [])) [] (.ok none)
      (fun _ _ => .ok ⟨none⟩) (fun _ _ => .ok ⟨none⟩) "invalid body"
      (body_decoding_spec.2.2.2.2.2.1 [] rfl)

/-- C9 counterexample: the caller-identity header present with the empty
string as value is rejected with the missing-function-name error rather
than returned verbatim, so the failure is not limited to an absent
header. -/
theorem header_present_empty_fails :
    jsHeaderGet [("sf-external-function-name", some "")] "sf-external-function-name"
      = some "" ∧
    getSnowflakeFunctionNameFromHeaders [("sf-external-function-name", some "")]
      = .error "missing function name" :=
  ⟨rfl, rfl⟩

/-- C9 amended: decoding fails with the missing-function-name error
exactly when the header value is falsy — absent, present but undefined,
or present with the empty string; a present non-empty value is returned
verbatim; and the handler maps a header failure of a well-decoded
request to status 401. -/
theorem header_decoding_amended
    (headers : List (String × Option String)) (s msg : String)
    (parsed : Except Unit JsValue) (rows : JsValue) :
    (jsHeaderGet headers "sf-external-function-name" = none →
      getSnowflakeFunctionNameFromHeaders headers = .error "missing function name") ∧
    (jsHeaderGet headers "sf-external-function-name" = some "" →
      getSnowflakeFunctionNameFromHeaders headers = .error "missing function name") ∧
    (jsHeaderGet headers "sf-external-function-name" = some s → s ≠ "" →
      getSnowflakeFunctionNameFromHeaders headers = .ok s) ∧
    (getRowsFromBody parsed = .ok rows →
      getSnowflakeFunctionNameFromHeaders headers = .error msg →
      ∀ fetched gb rb, handler parsed headers fetched gb rb
        = ⟨401, .errorMsg "missing required Snowflake header: sf-external-function-name"⟩) := by
  refine ⟨?_, ?_, ?_, ?_⟩
  · intro h; simp [getSnowflakeFunctionNameFromHeaders, h]
  · intro h; simp [getSnowflakeFunctionNameFromHeaders, h]
  · intro h hs; simp [getSnowflakeFunctionNameFromHeaders, h, hs]
  · intro hb hh fetched gb rb
    simp [handler, hb, hh]

/-- Witness for the amended C9: absent header fails, empty value fails,
a non-empty value is returned verbatim, and a header failure yields a
401 response. -/
theorem header_decoding_amended_witness :
    getSnowflakeFunctionNameFromHeaders [] = .error "missing function name" ∧
    getSnowflakeFunctionNameFromHeaders [("sf-external-function-name", some "")]
      = .error "missing function name" ∧
    getSnowflakeFunctionNameFromHeaders
      [("sf-external-function-name", some "geocode_amazon_location_service_provider_here")]
      = .ok "geocode_amazon_location_service_provider_here" ∧
    handler (.ok (.obj [("data", .arr [.arr [.num 1, .str "addr"]])])) [] (.ok none)
      (fun _ _ => .ok ⟨none⟩) (fun _ _ => .ok ⟨none⟩)
      = ⟨401, .errorMsg "missing required Snowflake header: sf-external-function-name"⟩ := by
  refine ⟨(header_decoding_amended [] "x" "missing function name" (.error ()) .null).1 rfl,
    (header_decoding_amended [("sf-external-function-name", some "")] "x"
      "missing function name" (.error ()) .null).2.1 rfl,
    (header_decoding_amended
      [("sf-external-function-name", some "geocode_amazon_location_service_provider_here")]
      "geocode_amazon_location_service_provider_here" "missing function name"
      (.error ()) .null).2.2.1 rfl (by simp),
    (header_decoding_amended [] "x" "missing function name"
      (.ok (.obj [("data", .arr [.arr [.num 1, .str "addr"]])]))
      (.arr [.arr [.num 1, .str "addr"]])).2.2.2 rfl rfl (.ok none)
      (fun _ _ => .ok ⟨none⟩) (fun _ _ => .ok ⟨none⟩)⟩

/-- C10: checkData looks only at the index keys of the property-name
array — it is independent of the names themselves, holding exactly when
the data object has own properties "0", "1", ..., one per requested
name; consequently getValuesFromEventProperties never throws its
missing-properties error for a ResourceProperties object lacking those
numeric keys, even when all three named properties are absent. -/
theorem checkData_numeric_keys_spec
    (d props : List (String × JsValue)) (ps qs : List String) :
    (checkData (some d) ps = true ↔
      ∀ i, i < ps.length → hasOwnKey d (toString i) = true) ∧
    (ps.length = qs.length → checkData (some d) ps = checkData (some d) qs) ∧
    (¬(hasOwnKey props "0" = true ∧ hasOwnKey props "1" = true ∧
        hasOwnKey props "2" = true) →
      getValuesFromEventProperties props
        = .ok (jsFieldD props "integrationName", jsFieldD props "apiAwsRoleArn",
               jsFieldD props "apiBaseUrl")) := by
  refine ⟨?_, ?_, ?_⟩
  · simp [checkData, List.all_eq_true, List.mem_range]
  · intro h; simp [checkData, h]
  · intro h
    have hc : checkData (some props)
        ["integrationName", "apiAwsRoleArn", "apiBaseUrl"] = false := by
      by_contra hc
      rw [Bool.not_eq_false] at hc
      simp only [checkData, List.all_eq_true, List.mem_range] at hc
      exact h ⟨hc 0 (by decide), hc 1 (by decide), hc 2 (by decide)⟩
    simp [getValuesFromEventProperties, hc]

/-- Witness for C10: an empty ResourceProperties object (all three named
properties absent) passes the validation without error, while an object
carrying only the numeric keys "0", "1", "2" satisfies checkData against
the three-name list. -/
theorem checkData_numeric_keys_spec_witness :
    getValuesFromEventProperties [] = .ok (.undefined, .undefined, .undefined) ∧
    checkData (some [("0", .null), ("1", .null), ("2", .null)])
      ["integrationName", "apiAwsRoleArn", "apiBaseUrl"] = true := by
  refine ⟨(checkData_numeric_keys_spec [] [] [] []).2.2 (by decide), ?_⟩
  exact (checkData_numeric_keys_spec [("0", .null), ("1", .null), ("2", .null)]
    [] ["integrationName", "apiAwsRoleArn", "apiBaseUrl"] []).1.mpr (by decide)

/-- Running any list of `DROP FUNCTION IF EXISTS` statements always
succeeds, whatever the warehouse state. -/
theorem execStatements_drops_ok (names : List String) :
    ∀ (w : Warehouse), (execStatements w (names.map .dropFunctionIfExists)).out = .ok () := by
  induction names with
  | nil => intro w; rfl
  | cons n rest ih =>
    intro w
    simp only [List.map_cons, execStatements, execStatement]
    exact ih _

/-- C5 counterexample: running the reconciler's Delete twice with the
same physical identity fails the second time — the second run's plain
`DROP API INTEGRATION` hits an already-absent integration and its error
propagates. -/
theorem delete_twice_second_fails :
    (handlerDelete
      ⟨["MY_INTEGRATION"], functionNamesForRegion "eu-west-1", fun _ => []⟩
      "eu-west-1" "MY_INTEGRATION").out = .ok () ∧
    (handlerDelete
      (handlerDelete
        ⟨["MY_INTEGRATION"], functionNamesForRegion "eu-west-1", fun _ => []⟩
        "eu-west-1" "MY_INTEGRATION").state
      "eu-west-1" "MY_INTEGRATION").out
      = .error (.error "integration does not exist or not authorized") :=
  ⟨rfl, rfl⟩

/-- C5 amended: the Delete path is idempotent only for the callable
functions — their `IF EXISTS` drops always succeed — while the
integration drop is a plain `DROP API INTEGRATION` that fails when the
integration is already absent, so a repeated Delete with the same
physical identity errors instead of succeeding. -/
theorem delete_idempotency_amended (w : Warehouse) (region name : String) :
    (name ∈ w.integrations → (handlerDelete w region name).out = .ok ()) ∧
    (name ∉ w.integrations →
      (handlerDelete w region name).out
        = .error (.error "integration does not exist or not authorized")) ∧
    (deleteExternalFunctions w region).out = .ok () := by
  refine ⟨?_, ?_, execStatements_drops_ok _ w⟩
  · intro h
    simp [handlerDelete, deleteApiIntegration, execStatement, h, deleteExternalFunctions,
      execStatements_drops_ok]
  · intro h
    simp [handlerDelete, deleteApiIntegration, execStatement, h]

/-- Witness for the amended C5: a first Delete on a present integration
succeeds, a Delete on an absent one fails, and the function drops always
succeed. -/
theorem delete_idempotency_amended_witness :
    (handlerDelete ⟨["INT_A"], ["geocode_amazon_location_service_provider_here"], fun _ => []⟩
      "eu-west-1" "INT_A").out = .ok () ∧
    (handlerDelete ⟨[], [], fun _ => []⟩ "eu-west-1" "INT_A").out
      = .error (.error "integration does not exist or not authorized") ∧
    (deleteExternalFunctions ⟨[], [], fun _ => []⟩ "eu-west-1").out = .ok () := by
  refine ⟨?_, ?_, ?_⟩
  · exact (delete_idempotency_amended
      ⟨["INT_A"], ["geocode_amazon_location_service_provider_here"], fun _ => []⟩
      "eu-west-1" "INT_A").1 (by decide)
  · exact (delete_idempotency_amended ⟨[], [], fun _ => []⟩ "eu-west-1" "INT_A").2.1
      (by decide)
  · exact (delete_idempotency_amended ⟨[], [], fun _ => []⟩ "eu-west-1" "INT_A").2.2

/-- Every statement in an execution trace was part of the submitted
statement list. -/
theorem execStatements_trace_mem : ∀ (l : List SfStatement) (w : Warehouse) (s : SfStatement),
    s ∈ (execStatements w l).trace → s ∈ l := by
  intro l
  induction l with
  | nil => intro w s hs; simp [execStatements] at hs
  | cons a rest ih =>
    intro w s hs
    cases hx : execStatement w a with
    | error e =>
      simp only [execStatements, hx, List.mem_singleton] at hs
      simp [hs]
    | ok p =>
      obtain ⟨w', rows⟩ := p
      simp only [execStatements, hx, List.mem_cons] at hs
      rcases hs with h | h
      · simp [h]
      · exact List.mem_cons_of_mem _ (ih w' s h)

/-- Running the `IF EXISTS` drops leaves the integrations and describe
rows untouched, records exactly the submitted statements, and leaves no
dropped name among the remaining functions. -/
theorem execStatements_drops_spec (names : List String) :
    ∀ (w : Warehouse),
      (execStatements w (names.map .dropFunctionIfExists)).trace
        = names.map .dropFunctionIfExists ∧
      (execStatements w (names.map .dropFunctionIfExists)).state.integrations
        = w.integrations ∧
      (execStatements w (names.map .dropFunctionIfExists)).state.describeRows
        = w.describeRows ∧
      (∀ f, f ∈ (execStatements w (names.map .dropFunctionIfExists)).state.functions →
        f ∈ w.functions ∧ f ∉ names) := by
  induction names with
  | nil => intro w; exact ⟨rfl, rfl, rfl, fun f hf => ⟨hf, by simp⟩⟩
  | cons n rest ih =>
    intro w
    simp only [List.map_cons, execStatements, execStatement]
    obtain ⟨ht, hi, hd, hf⟩ := ih { w with functions := removeName w.functions n }
    refine ⟨by simp [ht], by simp [hi], by simp [hd], ?_⟩
    intro f hfin
    obtain ⟨hmem, hnotin⟩ := hf f hfin
    simp only [removeName, List.mem_filter, bne_iff_ne] at hmem
    exact ⟨hmem.1, by simp [hmem.2, hnotin]⟩

/-- Running the `CREATE EXTERNAL FUNCTION` statements for distinct,
absent function names succeeds and records exactly the submitted
statements. -/
theorem execStatements_creates_ok (integ url : String) :
    ∀ (names : List String) (w : Warehouse), names.Nodup →
      (∀ n ∈ names, n ∉ w.functions) →
      (execStatements w (names.map (fun n => .createFunction n integ url))).out = .ok () ∧
      (execStatements w (names.map (fun n => .createFunction n integ url))).trace
        = names.map (fun n => .createFunction n integ url) := by
  intro names
  induction names with
  | nil => intro w _ _; exact ⟨rfl, rfl⟩
  | cons n rest ih =>
    intro w hnd habs
    have hn : n ∉ w.functions := habs n (List.mem_cons_self n rest)
    simp only [List.map_cons, execStatements, execStatement, if_neg hn]
    have hrest := ih { w with functions := n :: w.functions }
      (List.Nodup.of_cons hnd)
      (by
        intro m hm
        simp only [List.mem_cons, not_or]
        exact ⟨fun he => (List.Nodup.not_mem hnd) (he ▸ hm),
          habs m (List.mem_cons_of_mem _ hm)⟩)
    exact ⟨by simp [hrest.1], by simp [hrest.2]⟩

/-- The managed function names are distinct in every region. -/
theorem functionNamesForRegion_nodup (region : String) :
    (functionNamesForRegion region).Nodup := by
  by_cases h : region = "ap-southeast-1" <;>
    simp only [functionNamesForRegion, baseFunctionNames, h] <;> decide

/-- Describing an integration never changes the warehouse and submits
exactly the describe statement. -/
theorem describeApiIntegration_state_trace (w : Warehouse) (n : String) :
    (describeApiIntegration w n).state = w ∧
    (describeApiIntegration w n).trace = [.describeIntegration n] := by
  by_cases h : n ∈ w.integrations
  · simp [describeApiIntegration, execStatement, h]
  · simp [describeApiIntegration, execStatement, h]

/-- An Update whose requested name equals the physical resource id skips
the integration delete/create entirely. -/
theorem updateApiIntegration_self (w : Warehouse) (name roleArn url : String) :
    updateApiIntegration w name roleArn url name = ⟨.ok (), w, []⟩ := by
  simp [updateApiIntegration]

/-- Rebuilding the external functions always succeeds and always submits
exactly the full drop list followed by the full create list. -/
theorem updateExternalFunctions_spec (w : Warehouse) (region integ url : String) :
    (updateExternalFunctions w region integ url).out = .ok () ∧
    (updateExternalFunctions w region integ url).trace
      = (functionNamesForRegion region).map .dropFunctionIfExists
        ++ (functionNamesForRegion region).map (fun n => .createFunction n integ url) := by
  have hdok := execStatements_drops_ok (functionNamesForRegion region) w
  obtain ⟨ht, _, _, hf⟩ := execStatements_drops_spec (functionNamesForRegion region) w
  have habs : ∀ n ∈ functionNamesForRegion region,
      n ∉ (execStatements w
        ((functionNamesForRegion region).map .dropFunctionIfExists)).state.functions := by
    intro n hn hmem
    exact (hf n hmem).2 hn
  obtain ⟨hcok, hct⟩ := execStatements_creates_ok integ url (functionNamesForRegion region)
    (execStatements w ((functionNamesForRegion region).map .dropFunctionIfExists)).state
    (functionNamesForRegion_nodup region) habs
  constructor <;>
    simp [updateExternalFunctions, deleteExternalFunctions, createExternalFunctions,
      hdok, hcok, hct, ht]

/-- Rebuilding the external functions submits no integration create or
drop. -/
theorem updateExternalFunctions_no_integration_writes
    (w : Warehouse) (region integ url : String) :
    ∀ s ∈ (updateExternalFunctions w region integ url).trace,
      isIntegrationWrite s = false := by
  intro s hs
  rw [(updateExternalFunctions_spec w region integ url).2] at hs
  simp only [List.mem_append, List.mem_map] at hs
  rcases hs with ⟨n, _, rfl⟩ | ⟨n, _, rfl⟩ <;> rfl

/-- C6: an Update whose requested integration name equals the physical
identity issues no integration delete or create — it describes the
integration and rebuilds only the callable functions (unconditional
delete-then-recreate) — while an Update whose name differs first drops
the integration under the old identity and then creates it under the new
name, in that order. -/
theorem update_branch_integration_policy
    (w : Warehouse) (region name roleArn url physId arn eid : String) :
    (updateApiIntegration w name roleArn url name).out = .ok () ∧
    (updateApiIntegration w name roleArn url name).trace = [] ∧
    (updateApiIntegration w name roleArn url name).state = w ∧
    (∀ s ∈ (handlerUpdate w region name roleArn url name).trace,
      isIntegrationWrite s = false) ∧
    ((describeApiIntegration w name).out = .ok (arn, eid) →
      (handlerUpdate w region name roleArn url name).out = .ok (name, arn, eid) ∧
      (handlerUpdate w region name roleArn url name).trace
        = .describeIntegration name ::
            ((functionNamesForRegion region).map .dropFunctionIfExists
              ++ (functionNamesForRegion region).map (fun n => .createFunction n name url))) ∧
    (physId ≠ name → physId ∈ w.integrations →
      (handlerUpdate w region name roleArn url physId).trace.take 2
        = [.dropIntegration physId, .createIntegration name roleArn url]) := by
  have hu := updateApiIntegration_self w name roleArn url
  have hds := describeApiIntegration_state_trace w name
  refine ⟨by rw [hu], by rw [hu], by rw [hu], ?_, ?_, ?_⟩
  · intro s hs
    cases hdo : (describeApiIntegration w name).out with
    | error e =>
      simp only [handlerUpdate, hu, hds.1, hds.2, hdo, List.nil_append] at hs
      rw [List.mem_singleton] at hs
      rw [hs]
      rfl
    | ok p =>
      obtain ⟨a2, e2⟩ := p
      cases hfo : (updateExternalFunctions w region name url).out with
      | error e =>
        simp only [handlerUpdate, hu, hds.1, hds.2, hdo, hfo, List.nil_append,
          List.mem_cons, List.mem_append] at hs
        rcases hs with (rfl | hnil) | hs
        · rfl
        · exact absurd hnil (List.not_mem_nil s)
        · exact updateExternalFunctions_no_integration_writes w region name url s hs
      | ok q =>
        simp only [handlerUpdate, hu, hds.1, hds.2, hdo, hfo, List.nil_append,
          List.mem_cons, List.mem_append] at hs
        rcases hs with (rfl | hnil) | hs
        · rfl
        · exact absurd hnil (List.not_mem_nil s)
        · exact updateExternalFunctions_no_integration_writes w region name url s hs
  · intro hd
    have huef := updateExternalFunctions_spec w region name url
    constructor <;>
      simp [handlerUpdate, hu, hds.1, hds.2, hd, huef.1, huef.2]
  · intro hne hmem
    have hdel : deleteApiIntegration w physId
        = ⟨.ok (), { w with integrations := removeName w.integrations physId },
           [.dropIntegration physId]⟩ := by
      simp [deleteApiIntegration, execStatement, hmem]
    have hupd : (updateApiIntegration w name roleArn url physId).out = .ok () ∧
        (updateApiIntegration w name roleArn url physId).trace
          = [.dropIntegration physId, .createIntegration name roleArn url] := by
      constructor <;> simp [updateApiIntegration, hne, hdel, createApiIntegration, execStatement]
    cases hdo : (describeApiIntegration
        (updateApiIntegration w name roleArn url physId).state name).out with
    | error e =>
      simp [handlerUpdate, hupd.1, hupd.2, hdo,
        (describeApiIntegration_state_trace
          (updateApiIntegration w name roleArn url physId).state name).2]
    | ok p =>
      obtain ⟨a2, e2⟩ := p
      cases hfo : (updateExternalFunctions
          (describeApiIntegration
            (updateApiIntegration w name roleArn url physId).state name).state
          region name url).out with
      | error e =>
        simp [handlerUpdate, hupd.1, hupd.2, hdo, hfo,
          (describeApiIntegration_state_trace
            (updateApiIntegration w name roleArn url physId).state name).2]
      | ok q =>
        simp [handlerUpdate, hupd.1, hupd.2, hdo, hfo,
          (describeApiIntegration_state_trace
            (updateApiIntegration w name roleArn url physId).state name).2]

/-- Witness for C6: on a concrete warehouse, an Update with unchanged
name returns the described attributes and issues only the describe plus
the function rebuild, while an Update with a changed name starts by
dropping the old integration and creating the new one. -/
theorem update_branch_integration_policy_witness :
    (handlerUpdate
      ⟨["NEW_INT", "OLD_INT"], [],
        fun _ => [("API_AWS_IAM_USER_ARN", "arn:aws:iam::1:user/sf"),
                  ("API_AWS_EXTERNAL_ID", "EID")]⟩
      "eu-west-1" "NEW_INT" "role" "https://api" "NEW_INT").out
      = .ok ("NEW_INT", "arn:aws:iam::1:user/sf", "EID") ∧
    (handlerUpdate
      ⟨["NEW_INT", "OLD_INT"], [],
        fun _ => [("API_AWS_IAM_USER_ARN", "arn:aws:iam::1:user/sf"),
                  ("API_AWS_EXTERNAL_ID", "EID")]⟩
      "eu-west-1" "NEW_INT" "role" "https://api" "OLD_INT").trace.take 2
      = [.dropIntegration "OLD_INT", .createIntegration "NEW_INT" "role" "https://api"] := by
  refine ⟨?_, ?_⟩
  · exact ((update_branch_integration_policy
      ⟨["NEW_INT", "OLD_INT"], [],
        fun _ => [("API_AWS_IAM_USER_ARN", "arn:aws:iam::1:user/sf"),
                  ("API_AWS_EXTERNAL_ID", "EID")]⟩
      "eu-west-1" "NEW_INT" "role" "https://api" "NEW_INT"
      "arn:aws:iam::1:user/sf" "EID").2.2.2.2.1 rfl).1
  · exact (update_branch_integration_policy
      ⟨["NEW_INT", "OLD_INT"], [],
        fun _ => [("API_AWS_IAM_USER_ARN", "arn:aws:iam::1:user/sf"),
                  ("API_AWS_EXTERNAL_ID", "EID")]⟩
      "eu-west-1" "NEW_INT" "role" "https://api" "OLD_INT"
      "arn:aws:iam::1:user/sf" "EID").2.2.2.2.2 (by decide) (by decide)
